import Mathlib

/-!
# Medical_Scheduling_Bot — shallow embedding and verification

A shallow embedding of the Express/PostgreSQL appointment-booking backend
(`server.js` and its revisions).  Dates are modelled as natural numbers
counting days from an epoch whose day 0 is a Sunday (so PostgreSQL
`EXTRACT(DOW ...)` is `d % 7`); times of day are minutes since midnight.
Appointment statuses are the literal strings stored in the `status` column.
The connection pool is modelled by an explicit `DB` state record; a query
that raises is modelled by an explicit failure flag on the operations whose
source wraps the query in `try/catch`.
-/

namespace MedSched

/-- A row of the `doctors` table (columns used by the server). -/
structure Doctor where
  id : Nat
  name : String
  specialty : String
  officeLocation : String
  isActive : Bool
deriving DecidableEq, Repr

/-- A row of the `users` (patients) table. -/
structure Patient where
  id : Nat
  name : String
  email : String
  phone : String
deriving DecidableEq, Repr

/-- A row of the `appointments` table.  `status` holds one of the literal
strings `scheduled`, `confirmed`, `completed`, `cancelled`, `no-show`
(the server never constrains the column beyond its own writes).
`confirmationNumber` is a database-generated value unspecified by the
source; it is modelled as equal to the generated row id. -/
structure Appointment where
  id : Nat
  userId : Nat
  doctorId : Nat
  appointmentTypeId : Nat
  appointmentDate : Nat
  appointmentTime : Nat
  reasonForVisit : String
  status : String
  notes : String
  confirmationNumber : Nat
deriving DecidableEq, Repr

/-- A row of the `doctor_availability` table: a recurring weekly window. -/
structure AvailabilityWindow where
  doctorId : Nat
  dayOfWeek : Nat
  startTime : Nat
  endTime : Nat
  isActive : Bool
deriving DecidableEq, Repr

/-- A row of the `blocked_slots` table: a one-off date + time-range override. -/
structure BlockedSlot where
  doctorId : Nat
  blockedDate : Nat
  startTime : Nat
  endTime : Nat
deriving DecidableEq, Repr

/-- The database state reachable by the server, plus the id sequences
backing the `users` and `appointments` primary keys. -/
structure DB where
  doctors : List Doctor
  users : List Patient
  appointments : List Appointment
  doctorAvailability : List AvailabilityWindow
  blockedSlots : List BlockedSlot
  nextUserId : Nat
  nextAppointmentId : Nat
deriving DecidableEq, Repr

/-- PostgreSQL `EXTRACT(DOW FROM date)` with day 0 of the epoch a Sunday. -/
def dayOfWeek (d : Nat) : Nat := d % 7

/-! ## checkTimeSlotAvailability (server.js lines 457-475)

```
SELECT CASE WHEN COUNT(*) = 0 THEN true ELSE false END as available
FROM (
  SELECT 1 FROM appointments
   WHERE doctor_id = $1 AND appointment_date = $2 AND appointment_time = $3
     AND status IN ('scheduled', 'confirmed')
  UNION ALL
  SELECT 1 FROM blocked_slots
   WHERE doctor_id = $1 AND blocked_date = $2
     AND $3::time BETWEEN start_time AND end_time
) conflicts;
```
The surrounding `try/catch` returns `{ available: false }` when the query
raises; the raise is modelled by the `queryFails` flag. -/

/-- Appointment rows conflicting with the requested (doctor, date, time):
same triple and `status IN ('scheduled', 'confirmed')`. -/
def appointmentConflicts (db : DB) (doctorId date time : Nat) : List Appointment :=
  db.appointments.filter (fun a =>
    a.doctorId == doctorId && a.appointmentDate == date && a.appointmentTime == time &&
      (a.status == "scheduled" || a.status == "confirmed"))

/-- Blocked-slot rows conflicting with the request: same doctor and date and
`$3::time BETWEEN start_time AND end_time` (inclusive on both ends). -/
def blockedConflicts (db : DB) (doctorId date time : Nat) : List BlockedSlot :=
  db.blockedSlots.filter (fun b =>
    b.doctorId == doctorId && b.blockedDate == date &&
      decide (b.startTime ≤ time) && decide (time ≤ b.endTime))

/-- `COUNT(*)` over the `UNION ALL` of the two conflict subqueries. -/
def conflictCount (db : DB) (doctorId date time : Nat) : Nat :=
  (appointmentConflicts db doctorId date time).length +
    (blockedConflicts db doctorId date time).length

/-- The object `{ available: Bool }` returned by `checkTimeSlotAvailability`. -/
structure Availability where
  available : Bool
deriving DecidableEq, Repr

/-- `checkTimeSlotAvailability(doctorId, date, time)`: runs the conflict
query; on a query error (`queryFails = true`) the `catch` returns
`{ available: false }`. -/
def checkTimeSlotAvailability (db : DB) (queryFails : Bool)
    (doctorId date time : Nat) : Availability :=
  if queryFails then { available := false }
  else { available := conflictCount db doctorId date time == 0 }

/-! ## findOrCreateUser and bookAppointment (server.js lines 477-491) -/

/-- `findOrCreateUser(name, email, phone)`: `SELECT id FROM users WHERE
email = $1`; reuse the first match, otherwise `INSERT ... RETURNING id`. -/
def findOrCreateUser (db : DB) (name email phone : String) : Nat × DB :=
  match db.users.find? (fun u => u.email == email) with
  | some u => (u.id, db)
  | none =>
      let newUser : Patient := { id := db.nextUserId, name := name, email := email, phone := phone }
      (db.nextUserId,
       { db with users := db.users ++ [newUser], nextUserId := db.nextUserId + 1 })

/-- JavaScript `appointmentTypeId || 1`: an absent or zero (falsy) value
defaults to 1. -/
def jsOrOne : Option Nat → Nat
  | none => 1
  | some n => if n = 0 then 1 else n

/-- `bookAppointment({...})`: `INSERT INTO appointments (...) VALUES
($1,...,$6,'scheduled') RETURNING id, confirmation_number`.  The status is
always the literal `'scheduled'`. -/
def bookAppointment (db : DB) (userId doctorId : Nat) (appointmentTypeId : Option Nat)
    (appointmentDate appointmentTime : Nat) (reasonForVisit : String) : Appointment × DB :=
  let appt : Appointment := {
    id := db.nextAppointmentId,
    userId := userId,
    doctorId := doctorId,
    appointmentTypeId := jsOrOne appointmentTypeId,
    appointmentDate := appointmentDate,
    appointmentTime := appointmentTime,
    reasonForVisit := reasonForVisit,
    status := "scheduled",
    notes := "",
    confirmationNumber := db.nextAppointmentId }
  (appt,
   { db with appointments := db.appointments ++ [appt],
             nextAppointmentId := db.nextAppointmentId + 1 })

/-! ## getDatabaseContext (server.js lines 375-426)

Three queries: active doctors ordered by name; the `availabilityQuery`
joining `generate_series(0, 6)` against `doctor_availability` on
day-of-week and against active `doctors`, ordered by date then start time,
`LIMIT 100`; and the upcoming `scheduled`/`confirmed` appointments joined
with doctor and patient names.  The surrounding `try/catch` returns an
empty context on any query error (`queryFails` flag). -/

/-- A row of the `availabilityQuery` result. -/
structure AvailRow where
  doctorId : Nat
  doctorName : String
  specialty : String
  availableDate : Nat
  startTime : Nat
  endTime : Nat
deriving DecidableEq, Repr

/-- Insert a window into a list sorted by ascending `startTime`
(`ORDER BY da.start_time` within one generated date). -/
def insertByStart (w : AvailabilityWindow) :
    List AvailabilityWindow → List AvailabilityWindow
  | [] => [w]
  | x :: xs => if w.startTime < x.startTime then w :: x :: xs else x :: insertByStart w xs

/-- Sort windows by ascending `startTime`. -/
def sortByStart : List AvailabilityWindow → List AvailabilityWindow
  | [] => []
  | x :: xs => insertByStart x (sortByStart xs)

/-- Insert a doctor into a list sorted by name (`ORDER BY name`, modelled
with Lean's code-point string order in place of the database collation). -/
def insertByName (d : Doctor) : List Doctor → List Doctor
  | [] => [d]
  | x :: xs => if d.name < x.name then d :: x :: xs else x :: insertByName d xs

/-- Sort doctors by name. -/
def sortDoctorsByName : List Doctor → List Doctor
  | [] => []
  | x :: xs => insertByName x (sortDoctorsByName xs)

/-- The `availabilityQuery`: for each of the 7 generated dates (today + 0..6),
the active availability windows whose `day_of_week` matches that date,
inner-joined against active doctors, ordered by date then start time and
capped at 100 rows. -/
def availabilityQueryRows (db : DB) (today : Nat) : List AvailRow :=
  (((List.range 7).flatMap (fun n =>
    let d := today + n
    (sortByStart (db.doctorAvailability.filter
        (fun w => w.isActive && w.dayOfWeek == dayOfWeek d))).filterMap (fun w =>
      match db.doctors.find? (fun doc => doc.id == w.doctorId) with
      | some doc =>
          if doc.isActive then
            some { doctorId := doc.id, doctorName := doc.name, specialty := doc.specialty,
                   availableDate := d, startTime := w.startTime, endTime := w.endTime }
          else none
      | none => none))).take 100 : List AvailRow)

/-- A row of the `existing_appointments` context query. -/
structure ApptContextRow where
  appointmentDate : Nat
  appointmentTime : Nat
  doctorName : String
  patientName : String
deriving DecidableEq, Repr

/-- Insert an appointment row into a list sorted by (date, time). -/
def insertApptRow (r : ApptContextRow) : List ApptContextRow → List ApptContextRow
  | [] => [r]
  | x :: xs =>
      if r.appointmentDate < x.appointmentDate ||
         (r.appointmentDate == x.appointmentDate && r.appointmentTime < x.appointmentTime)
      then r :: x :: xs else x :: insertApptRow r xs

/-- Sort appointment context rows by (date, time). -/
def sortApptRows : List ApptContextRow → List ApptContextRow
  | [] => []
  | x :: xs => insertApptRow x (sortApptRows xs)

/-- The upcoming-appointments context query: `scheduled`/`confirmed`
appointments dated within `[CURRENT_DATE, CURRENT_DATE + 7 days]`,
inner-joined with doctor and patient names, ordered by date then time. -/
def existingAppointmentsRows (db : DB) (today : Nat) : List ApptContextRow :=
  sortApptRows (db.appointments.filterMap (fun a =>
    if today ≤ a.appointmentDate && a.appointmentDate ≤ today + 7 &&
       (a.status == "scheduled" || a.status == "confirmed") then
      match db.doctors.find? (fun d => d.id == a.doctorId),
            db.users.find? (fun u => u.id == a.userId) with
      | some d, some u =>
          some { appointmentDate := a.appointmentDate, appointmentTime := a.appointmentTime,
                 doctorName := d.name, patientName := u.name }
      | _, _ => none
    else none))

/-- The context object built by `getDatabaseContext`. -/
structure DbContext where
  doctors : List Doctor
  upcomingAvailability : List AvailRow
  existingAppointments : List ApptContextRow
  currentDate : Nat
  tomorrowDate : Nat
deriving DecidableEq, Repr

/-- `getDatabaseContext()`: the three queries above; on a query error the
`catch` returns the same shape with empty lists. -/
def getDatabaseContext (db : DB) (today : Nat) (queryFails : Bool) : DbContext :=
  if queryFails then
    { doctors := [], upcomingAvailability := [], existingAppointments := [],
      currentDate := today, tomorrowDate := today + 1 }
  else
    { doctors := sortDoctorsByName (db.doctors.filter (fun d => d.isActive)),
      upcomingAvailability := availabilityQueryRows db today,
      existingAppointments := existingAppointmentsRows db today,
      currentDate := today, tomorrowDate := today + 1 }

/-! ## getSuggestedAlternatives (server.js lines 493-504) -/

/-- A row of the alternatives query: `SELECT DISTINCT da.start_time,
... available_date`. -/
structure AltRow where
  startTime : Nat
  availableDate : Nat
deriving DecidableEq, Repr

/-- Insert an alternative row into a list sorted by (date, start time),
matching `ORDER BY available_date, da.start_time`. -/
def insertAltRow (r : AltRow) : List AltRow → List AltRow
  | [] => [r]
  | x :: xs =>
      if r.availableDate < x.availableDate ||
         (r.availableDate == x.availableDate && r.startTime < x.startTime)
      then r :: x :: xs else x :: insertAltRow r xs

/-- Sort alternative rows by (date, start time). -/
def sortAltRows : List AltRow → List AltRow
  | [] => []
  | x :: xs => insertAltRow x (sortAltRows xs)

/-- `getSuggestedAlternatives(doctorId)`: distinct (start_time, date) pairs
from the doctor's active windows over the 7-day window, ordered by date
then start time, `LIMIT 5`. -/
def getSuggestedAlternatives (db : DB) (doctorId today : Nat) : List AltRow :=
  ((sortAltRows ((List.range 7).flatMap (fun n =>
      let d := today + n
      (db.doctorAvailability.filter (fun w =>
          w.doctorId == doctorId && w.isActive && w.dayOfWeek == dayOfWeek d)).map
        (fun w => ({ startTime := w.startTime, availableDate := d } : AltRow))))).eraseDups).take 5

/-! ## String helpers for the fallback interpreter

JavaScript `String.prototype.includes` and the regex replace
`input.replace(/dr\.?\s*/i, '')` used by `generateSmartFallback`
(server.js lines 195-259). -/

/-- JavaScript `toLowerCase()` on one character (ASCII range; the doctor
names and specialties in the data are ASCII). -/
def lowerChar (c : Char) : Char :=
  if 'A' ≤ c && c ≤ 'Z' then Char.ofNat (c.toNat + 32) else c

/-- JavaScript `s.toLowerCase()`. -/
def toLowerCase (s : String) : String := String.mk (s.toList.map lowerChar)

/-- `needle` is an initial segment of `hay` (character lists). -/
def leadsList : List Char → List Char → Bool
  | [], _ => true
  | _ :: _, [] => false
  | a :: as, b :: bs => a == b && leadsList as bs

/-- `needle` occurs as a contiguous run somewhere in `hay`. -/
def containsAt : List Char → List Char → Bool
  | needle, [] => needle.isEmpty
  | needle, c :: rest => leadsList needle (c :: rest) || containsAt needle rest

/-- JavaScript `hay.includes(needle)`. -/
def strContains (hay needle : String) : Bool :=
  containsAt needle.toList hay.toList

/-- Whitespace characters matched by the regex class `\s` (the ones that
can occur in chat text). -/
def isJsSpace (c : Char) : Bool :=
  c == ' ' || c == '\t' || c == '\n' || c == '\r'

/-- If the character list starts with `dr` (case-insensitive) optionally
followed by `.` and then whitespace, return the remainder after the match. -/
def stripDrAt : List Char → Option (List Char)
  | c1 :: c2 :: rest =>
      if (c1 == 'd' || c1 == 'D') && (c2 == 'r' || c2 == 'R') then
        some (match rest with
              | '.' :: rest2 => rest2.dropWhile isJsSpace
              | _ => rest.dropWhile isJsSpace)
      else none
  | _ => none

/-- JavaScript `input.replace(/dr\.?\s*/i, '')`: delete the first match of
the pattern, leave the rest unchanged. -/
def replaceDr : List Char → List Char
  | [] => []
  | c :: cs =>
      match stripDrAt (c :: cs) with
      | some rest => rest
      | none => c :: replaceDr cs

/-- `input.replace(/dr\.?\s*/i, '')` on a string. -/
def stripDr (s : String) : String := String.mk (replaceDr s.toList)

/-! ## formatDate / formatTime (server.js lines 262-279) -/

/-- Keep the minutes component two digits wide, as in the `HH:MM:SS`
strings the source splits. -/
def pad2 (n : Nat) : String := if n < 10 then "0" ++ toString n else toString n

/-- `formatTime(timeStr)`: 12-hour rendering with AM/PM. -/
def formatTime (t : Nat) : String :=
  let hours := t / 60
  let minutes := t % 60
  let hour12 := if hours > 12 then hours - 12 else hours
  let ampm := if hours ≥ 12 then "PM" else "AM"
  toString hour12 ++ ":" ++ pad2 minutes ++ " " ++ ampm

/-- `formatDate(dateStr)`: `Today`, `Tomorrow`, or a locale-rendered date
(the `toLocaleDateString` branch is abstracted to a day-number rendering;
no verified property inspects it). -/
def formatDate (today d : Nat) : String :=
  if d == today then "Today"
  else if d == today + 1 then "Tomorrow"
  else "Day " ++ toString d

/-! ## generateSmartFallback (server.js lines 195-259) -/

/-- An element of the `actions` array: `{type, text, data}`. -/
structure Action where
  type : String
  text : String
  data : String
deriving DecidableEq, Repr

/-- The `{content, actions}` response shape built by the fallback. -/
structure Response where
  content : String
  actions : List Action
deriving DecidableEq, Repr

/-- The generic greeting returned when nothing matches. -/
def greetingResponse : Response :=
  { content := "Hi! I'm here to help you schedule medical appointments. You can tell me:\n• A doctor's name you'd like to see\n• A medical specialty you need\n• That you'd like to schedule an appointment\n\nHow can I help you today?",
    actions := [] }

/-- `generateSmartFallback(userMessage, dbContext)`: lower-case the input,
try a doctor-name match (substring either direction, with the `dr` strip),
then a specialty keyword, then the appointment/schedule/book keywords,
else the greeting. -/
def generateSmartFallback (userMessage : String) (dbContext : DbContext) : Response :=
  let input := toLowerCase userMessage
  match dbContext.doctors.find? (fun doc =>
      strContains input (toLowerCase doc.name) ||
      strContains (toLowerCase doc.name) (stripDr input)) with
  | some mentionedDoctor =>
      { content := "Great! I found Dr. " ++ mentionedDoctor.name ++ " in " ++
          mentionedDoctor.specialty ++ ". Here are available appointment times:",
        actions := ((dbContext.upcomingAvailability.filter
            (fun slot => slot.doctorId == mentionedDoctor.id)).take 5).map (fun slot =>
          { type := "select_date",
            text := formatDate dbContext.currentDate slot.availableDate ++ " at " ++
              formatTime slot.startTime,
            data := toString slot.doctorId ++ "," ++ toString slot.availableDate ++ "," ++
              toString slot.startTime }) }
  | none =>
    let specialties := (dbContext.doctors.map (fun d => toLowerCase d.specialty)).eraseDups
    match specialties.find? (fun spec => strContains input spec) with
    | some mentionedSpecialty =>
        { content := "Our " ++ mentionedSpecialty ++ " specialists are:",
          actions := (dbContext.doctors.filter
              (fun doc => toLowerCase doc.specialty == mentionedSpecialty)).map (fun doc =>
            { type := "select_doctor", text := "Dr. " ++ doc.name, data := toString doc.id }) }
    | none =>
      if strContains input "appointment" || strContains input "schedule" ||
         strContains input "book" then
        { content := "I'd be happy to help you schedule an appointment! Which doctor would you like to see?",
          actions := (dbContext.doctors.take 6).map (fun doc =>
            { type := "select_doctor",
              text := "Dr. " ++ doc.name ++ " (" ++ doc.specialty ++ ")",
              data := toString doc.id }) }
      else greetingResponse

/-! ## generateAIResponse and the chat endpoint (server.js lines 55-67, 98-192)

The hosted-inference call is external: its outcome is a parameter.
`BedrockOutcome.raises` covers an axios raise or client-side timeout;
`noText` covers a response from which `extractTextFromBedrockResponse`
returns `null`; `text s` covers an extracted reply string.  `JSON.parse`
is a platform primitive modelled by the `jsonParse` oracle (`none` when it
throws, `some v` for the parsed value). -/

/-- A JavaScript value produced by `JSON.parse`. -/
inductive JsonValue where
  | null : JsonValue
  | bool (b : Bool) : JsonValue
  | num (n : Int) : JsonValue
  | str (s : String) : JsonValue
  | arr (xs : List JsonValue) : JsonValue
  | obj (fields : List (String × JsonValue)) : JsonValue

/-- Outcome of the Bedrock HTTP call as seen by `generateAIResponse`. -/
inductive BedrockOutcome where
  | raises : BedrockOutcome
  | noText : BedrockOutcome
  | text (s : String) : BedrockOutcome
deriving DecidableEq, Repr

/-- What `generateAIResponse` returns: either the JSON value parsed from
the model's reply (returned unchanged, whatever its shape), or the result
of the deterministic fallback. -/
inductive BotReply where
  | parsed (v : JsonValue) : BotReply
  | fallback (r : Response) : BotReply

/-- `generateAIResponse(userMessage, dbContext)`: on a raise the outer
`catch` falls back; on a `null` extraction it falls back; on text it
returns `JSON.parse(aiRaw)` if that succeeds and falls back otherwise. -/
def generateAIResponse (jsonParse : String → Option JsonValue)
    (userMessage : String) (dbContext : DbContext) (outcome : BedrockOutcome) : BotReply :=
  match outcome with
  | .raises => .fallback (generateSmartFallback userMessage dbContext)
  | .noText => .fallback (generateSmartFallback userMessage dbContext)
  | .text s =>
      match jsonParse s with
      | some parsed => .parsed parsed
      | none => .fallback (generateSmartFallback userMessage dbContext)

/-- The chat endpoint's JSON reply. -/
structure ChatResp where
  status : Nat
  success : Bool
  response : BotReply

/-- `POST /api/chat`: builds the context, calls `generateAIResponse`
(which is total — every failure path inside it is caught and falls back),
and replies `{success: true, response}` with HTTP 200. -/
def chatEndpoint (jsonParse : String → Option JsonValue) (message : String)
    (db : DB) (today : Nat) (ctxFails : Bool) (outcome : BedrockOutcome) : ChatResp :=
  let dbContext := getDatabaseContext db today ctxFails
  { status := 200, success := true,
    response := generateAIResponse jsonParse message dbContext outcome }

/-- Modelled from the spec: the expected `{content, actions}` shape of an
interpreter reply — an object with a string `content` and an `actions`
array whose elements each have string `type`, `text` and `data` fields.
The source never checks this shape; the definition exists only to state
claims that mention it. -/
def isActionShape : JsonValue → Bool
  | .obj fields =>
      (fields.find? (fun f => f.1 == "type")).any (fun f => f.2 matches .str _) &&
      (fields.find? (fun f => f.1 == "text")).any (fun f => f.2 matches .str _) &&
      (fields.find? (fun f => f.1 == "data")).any (fun f => f.2 matches .str _)
  | _ => false

/-- Modelled from the spec: see `isActionShape`. -/
def isResponseShape : JsonValue → Bool
  | .obj fields =>
      ((fields.find? (fun f => f.1 == "content")).any (fun f => f.2 matches .str _)) &&
      ((fields.find? (fun f => f.1 == "actions")).any (fun f =>
        match f.2 with
        | .arr xs => xs.all isActionShape
        | _ => false))
  | _ => false

/-! ## Booking endpoints (server.js lines 429-454; revision part_001
lines 545-628) -/

/-- The request body of `POST /api/book-appointment`.  A field absent from
the body is `none`; the endpoint's guard is JavaScript truthiness, so for
the string fields the empty string is also treated as missing. -/
structure BookRequest where
  patientName : Option String
  email : Option String
  phone : Option String
  doctorId : Option Nat
  appointmentTypeId : Option Nat
  appointmentDate : Option Nat
  appointmentTime : Option Nat
  reasonForVisit : Option String
deriving DecidableEq, Repr

/-- JavaScript `!field` for a string-valued body field. -/
def strFalsy : Option String → Bool
  | none => true
  | some s => s == ""

/-- JavaScript `!field` for a numeric body field (0 is falsy). -/
def natFalsy : Option Nat → Bool
  | none => true
  | some n => n == 0

/-- `!patientName || !email || !doctorId || !appointmentDate ||
!appointmentTime`. -/
def missingRequired (req : BookRequest) : Bool :=
  strFalsy req.patientName || strFalsy req.email || natFalsy req.doctorId ||
    natFalsy req.appointmentDate || natFalsy req.appointmentTime

/-- The JSON reply of `POST /api/book-appointment`. -/
structure BookResp where
  status : Nat
  success : Bool
  alternatives : Option (List AltRow)
  appointment : Option Appointment
deriving DecidableEq, Repr

/-- `POST /api/book-appointment`: 400 on missing required fields; then the
availability re-check — on conflict, HTTP 200 with `success:false` and the
suggested alternatives; otherwise find-or-create the patient, insert the
appointment and reply `success:true`. -/
def bookAppointmentEndpoint (db : DB) (today : Nat) (availFails : Bool)
    (req : BookRequest) : BookResp × DB :=
  if missingRequired req then
    ({ status := 400, success := false, alternatives := none, appointment := none }, db)
  else
    let doctorId := req.doctorId.getD 0
    let date := req.appointmentDate.getD 0
    let time := req.appointmentTime.getD 0
    let avail := checkTimeSlotAvailability db availFails doctorId date time
    if !avail.available then
      ({ status := 200, success := false,
         alternatives := some (getSuggestedAlternatives db doctorId today),
         appointment := none }, db)
    else
      let fc := findOrCreateUser db (req.patientName.getD "") (req.email.getD "")
        (req.phone.getD "")
      let bk := bookAppointment fc.2 fc.1 doctorId req.appointmentTypeId date time
        (req.reasonForVisit.getD "")
      ({ status := 200, success := true, alternatives := none,
         appointment := some bk.1 }, bk.2)

/-- The JSON reply of `POST /api/complete-booking`. -/
structure CompleteResp where
  status : Nat
  success : Bool
  appointment : Option Appointment
deriving DecidableEq, Repr

/-- `POST /api/complete-booking` (revision part_001 lines 545-628): the
`"doctorId,date,time"` composite arrives pre-split as the three numeric
arguments.  Looks the doctor up in the freshly built context (404 when
absent), re-checks availability (200 / `success:false` on conflict), then
books for the fixed demo patient. -/
def completeBookingEndpoint (db : DB) (today : Nat) (ctxFails availFails : Bool)
    (doctorId date time : Nat) : CompleteResp × DB :=
  let dbContext := getDatabaseContext db today ctxFails
  match dbContext.doctors.find? (fun d => d.id == doctorId) with
  | none => ({ status := 404, success := false, appointment := none }, db)
  | some _doctor =>
      let avail := checkTimeSlotAvailability db availFails doctorId date time
      if !avail.available then
        ({ status := 200, success := false, appointment := none }, db)
      else
        let fc := findOrCreateUser db "John Smith" "john.smith@email.com" "(555) 123-4567"
        let bk := bookAppointment fc.2 fc.1 doctorId (some 1) date time
          "General consultation"
        ({ status := 200, success := true, appointment := some bk.1 }, bk.2)

/-! ## Admin status update (revision part_001 lines 1094-1126) -/

/-- The endpoint's `validStatuses` list. -/
def validStatuses : List String :=
  ["scheduled", "confirmed", "completed", "cancelled", "no-show"]

/-- The JSON reply of `PUT /api/admin/appointments/:id/status`. -/
structure StatusResp where
  status : Nat
  success : Bool
  data : Option Appointment
deriving DecidableEq, Repr

/-- `PUT /api/admin/appointments/:id/status`: 400 when the requested status
is not in `validStatuses`; otherwise `UPDATE appointments SET status, notes
WHERE id = $3 RETURNING *` — 404 when no row matches, else the updated row.
The update is unconditional on the row's current status. -/
def updateAppointmentStatusEndpoint (db : DB) (id : Nat) (newStatus notes : String) :
    StatusResp × DB :=
  if !(validStatuses.contains newStatus) then
    ({ status := 400, success := false, data := none }, db)
  else
    match db.appointments.find? (fun a => a.id == id) with
    | none => ({ status := 404, success := false, data := none }, db)
    | some a =>
        ({ status := 200, success := true,
           data := some { a with status := newStatus, notes := notes } },
         { db with appointments := db.appointments.map (fun x =>
             if x.id == id then { x with status := newStatus, notes := notes } else x) })

/-! ## Shared example data -/

/-- An example doctor. -/
def doctorSarah : Doctor :=
  { id := 2, name := "Sarah Johnson", specialty := "Cardiology",
    officeLocation := "A1", isActive := true }

/-- A second example doctor in the same specialty. -/
def doctorJames : Doctor :=
  { id := 5, name := "James Smith", specialty := "Cardiology",
    officeLocation := "B2", isActive := true }

/-- An example database with one doctor, no users and no appointments. -/
def dbEx : DB :=
  { doctors := [doctorSarah], users := [], appointments := [],
    doctorAvailability := [{ doctorId := 2, dayOfWeek := 0, startTime := 540,
                             endTime := 1020, isActive := true }],
    blockedSlots := [], nextUserId := 1, nextAppointmentId := 1 }

/-- An example database whose only conflict is a blocked slot covering
10:00-11:00 (minutes 600-660) for doctor 2 on date 12. -/
def dbBlocked : DB :=
  { doctors := [doctorSarah], users := [], appointments := [],
    doctorAvailability := [],
    blockedSlots := [{ doctorId := 2, blockedDate := 12, startTime := 600, endTime := 660 }],
    nextUserId := 1, nextAppointmentId := 1 }

/-! ## Helper lemmas -/

/-- The appointment half of the conflict query finds a row exactly when a
`scheduled`/`confirmed` appointment sits on the requested triple. -/
theorem appointmentConflicts_ne_nil_iff (db : DB) (doctorId date time : Nat) :
    appointmentConflicts db doctorId date time ≠ [] ↔
      ∃ a ∈ db.appointments, a.doctorId = doctorId ∧ a.appointmentDate = date ∧
        a.appointmentTime = time ∧ (a.status = "scheduled" ∨ a.status = "confirmed") := by
  constructor
  · intro h
    obtain ⟨a, ha⟩ := List.exists_mem_of_ne_nil _ h
    have hm := List.mem_filter.mp ha
    refine ⟨a, hm.1, ?_⟩
    have h2 := hm.2
    simp only [Bool.and_eq_true, Bool.or_eq_true, beq_iff_eq] at h2
    exact ⟨h2.1.1.1, h2.1.1.2, h2.1.2, h2.2⟩
  · rintro ⟨a, hmem, h1, h2, h3, h4⟩ hnil
    have ha : a ∈ appointmentConflicts db doctorId date time := by
      refine List.mem_filter.mpr ⟨hmem, ?_⟩
      rcases h4 with h4 | h4 <;> simp [h1, h2, h3, h4]
    rw [hnil] at ha
    exact absurd ha (List.not_mem_nil a)

/-- The blocked-slot half of the conflict query finds a row exactly when a
blocked range for that doctor and date covers the requested time,
boundaries included. -/
theorem blockedConflicts_ne_nil_iff (db : DB) (doctorId date time : Nat) :
    blockedConflicts db doctorId date time ≠ [] ↔
      ∃ b ∈ db.blockedSlots, b.doctorId = doctorId ∧ b.blockedDate = date ∧
        b.startTime ≤ time ∧ time ≤ b.endTime := by
  constructor
  · intro h
    obtain ⟨b, hb⟩ := List.exists_mem_of_ne_nil _ h
    have hm := List.mem_filter.mp hb
    refine ⟨b, hm.1, ?_⟩
    have h2 := hm.2
    simp only [Bool.and_eq_true, beq_iff_eq, decide_eq_true_eq] at h2
    exact ⟨h2.1.1.1, h2.1.1.2, h2.1.2, h2.2⟩
  · rintro ⟨b, hmem, h1, h2, h3, h4⟩ hnil
    have hb : b ∈ blockedConflicts db doctorId date time := by
      refine List.mem_filter.mpr ⟨hmem, ?_⟩
      simp [h1, h2, h3, h4]
    rw [hnil] at hb
    exact absurd hb (List.not_mem_nil b)

/-- The availability check (with the query succeeding) answers `true`
exactly when both conflict lists are empty. -/
theorem checkAvail_true_iff (db : DB) (doctorId date time : Nat) :
    (checkTimeSlotAvailability db false doctorId date time).available = true ↔
      appointmentConflicts db doctorId date time = [] ∧
        blockedConflicts db doctorId date time = [] := by
  simp [checkTimeSlotAvailability, conflictCount, Nat.add_eq_zero, List.length_eq_zero]

/-- The availability check answers `false` exactly when a
`scheduled`/`confirmed` appointment sits on the triple or a blocked range
covers the requested time. -/
theorem checkAvail_false_iff (db : DB) (doctorId date time : Nat) :
    (checkTimeSlotAvailability db false doctorId date time).available = false ↔
      ((∃ a ∈ db.appointments, a.doctorId = doctorId ∧ a.appointmentDate = date ∧
          a.appointmentTime = time ∧ (a.status = "scheduled" ∨ a.status = "confirmed")) ∨
       (∃ b ∈ db.blockedSlots, b.doctorId = doctorId ∧ b.blockedDate = date ∧
          b.startTime ≤ time ∧ time ≤ b.endTime)) := by
  have key : (checkTimeSlotAvailability db false doctorId date time).available = false ↔
      ¬(appointmentConflicts db doctorId date time = [] ∧
        blockedConflicts db doctorId date time = []) := by
    rw [← checkAvail_true_iff]
    simp
  rw [key, not_and_or, ← ne_eq, ← ne_eq, appointmentConflicts_ne_nil_iff,
    blockedConflicts_ne_nil_iff]

/-! ## Claims -/

/-- C4: for every doctor, date and blocked slot with range [10:00, 11:00]
(minutes 600-660) on that date, the availability check rejects a request
at 10:30 (630) but not at 09:30 (570); in general the requested time is
treated as blocked exactly when it lies within `[start_time, end_time]`,
both boundaries included (the appointment half of the conflict union is
the other source of rejection, as the general characterisation states). -/
theorem c4_blocked_slot_inclusive :
    (∀ (db : DB) (doctorId date time : Nat),
      (checkTimeSlotAvailability db false doctorId date time).available = false ↔
        ((∃ a ∈ db.appointments, a.doctorId = doctorId ∧ a.appointmentDate = date ∧
            a.appointmentTime = time ∧ (a.status = "scheduled" ∨ a.status = "confirmed")) ∨
         (∃ b ∈ db.blockedSlots, b.doctorId = doctorId ∧ b.blockedDate = date ∧
            b.startTime ≤ time ∧ time ≤ b.endTime))) ∧
    (checkTimeSlotAvailability dbBlocked false 2 12 630).available = false ∧
    (checkTimeSlotAvailability dbBlocked false 2 12 570).available = true ∧
    (checkTimeSlotAvailability dbBlocked false 2 12 600).available = false ∧
    (checkTimeSlotAvailability dbBlocked false 2 12 660).available = false :=
  ⟨checkAvail_false_iff, by decide, by decide, by decide, by decide⟩

/-- A booking request with the patient name absent (used as the C9
witness input). -/
def reqMissingName : BookRequest :=
  { patientName := none, email := some "bob@x.com", phone := none,
    doctorId := some 2, appointmentTypeId := none, appointmentDate := some 12,
    appointmentTime := some 600, reasonForVisit := none }

/-- C9: every `POST /api/book-appointment` request missing one of the
required fields (patient name, email, doctor id, date, time) is answered
with HTTP 400 and `success:false`, and the database is unchanged — no
patient or appointment record is created. -/
theorem c9_missing_required_fields (db : DB) (today : Nat) (availFails : Bool)
    (req : BookRequest) (h : missingRequired req = true) :
    bookAppointmentEndpoint db today availFails req =
      ({ status := 400, success := false, alternatives := none, appointment := none }, db) := by
  simp [bookAppointmentEndpoint, h]

/-- Witness for C9 at a concrete request with no patient name. -/
theorem c9_missing_required_fields_witness :
    missingRequired reqMissingName = true ∧
    bookAppointmentEndpoint dbEx 12 false reqMissingName =
      ({ status := 400, success := false, alternatives := none, appointment := none }, dbEx) :=
  ⟨by decide, c9_missing_required_fields dbEx 12 false reqMissingName (by decide)⟩

/-- C10: the availability check fails closed — when the conflict query
raises, `checkTimeSlotAvailability` returns `available:false` instead of
propagating the error or answering `available:true`, and consequently
neither booking path can insert an appointment (the database is returned
unchanged) while the conflict check cannot be evaluated. -/
theorem c10_availability_fails_closed :
    (∀ (db : DB) (doctorId date time : Nat),
        checkTimeSlotAvailability db true doctorId date time = { available := false }) ∧
    (∀ (db : DB) (today : Nat) (req : BookRequest),
        (bookAppointmentEndpoint db today true req).2 = db) ∧
    (∀ (db : DB) (today : Nat) (ctxFails : Bool) (doctorId date time : Nat),
        (completeBookingEndpoint db today ctxFails true doctorId date time).2 = db) := by
  refine ⟨fun db d dt t => rfl, fun db today req => ?_, fun db today cf d dt t => ?_⟩
  · rw [bookAppointmentEndpoint]
    split <;> rfl
  · rw [completeBookingEndpoint]
    split <;> rfl

/-- If no element of `l1` satisfies `p`, searching `l1 ++ l2` searches `l2`. -/
theorem find?_append_of_none {α : Type} (p : α → Bool) (l1 l2 : List α)
    (h : l1.find? p = none) : (l1 ++ l2).find? p = l2.find? p := by
  induction l1 with
  | nil => rfl
  | cons a l ih =>
      rw [List.cons_append]
      cases hpa : p a with
      | true =>
          rw [List.find?_cons_of_pos _ hpa] at h
          exact absurd h (by simp)
      | false =>
          have hpa' : ¬p a = true := by simp [hpa]
          rw [List.find?_cons_of_neg _ hpa'] at h
          rw [List.find?_cons_of_neg _ hpa']
          exact ih h

/-- C6: a booking whose email has not been seen before creates exactly one
new patient record (with the freshly generated id), and any later call
with the same email returns that same patient id and leaves the users
table unchanged — no duplicate record is created. -/
theorem c6_find_or_create_user (db : DB) (name email phone name2 phone2 : String)
    (h : ∀ u ∈ db.users, u.email ≠ email) :
    (findOrCreateUser db name email phone).1 = db.nextUserId ∧
    (findOrCreateUser db name email phone).2.users =
      db.users ++ [{ id := db.nextUserId, name := name, email := email, phone := phone }] ∧
    (findOrCreateUser db name email phone).2.users.length = db.users.length + 1 ∧
    findOrCreateUser (findOrCreateUser db name email phone).2 name2 email phone2 =
      ((findOrCreateUser db name email phone).1, (findOrCreateUser db name email phone).2) := by
  have hnone : db.users.find? (fun u => u.email == email) = none := by
    rw [List.find?_eq_none]
    intro u hu
    simp only [beq_iff_eq]
    exact h u hu
  have h1 : findOrCreateUser db name email phone =
      (db.nextUserId, { db with
        users := db.users ++ [{ id := db.nextUserId, name := name, email := email, phone := phone }],
        nextUserId := db.nextUserId + 1 }) := by
    rw [findOrCreateUser, hnone]
  rw [h1]
  have hfind : (db.users ++
      [({ id := db.nextUserId, name := name, email := email, phone := phone } : Patient)]).find?
        (fun u => u.email == email) =
      some { id := db.nextUserId, name := name, email := email, phone := phone } := by
    rw [find?_append_of_none _ _ _ hnone]
    simp [List.find?]
  refine ⟨rfl, rfl, by simp, ?_⟩
  simp only [findOrCreateUser, hfind]

/-- A database holding one patient, used by the C6 witness. -/
def dbOneUser : DB :=
  { doctors := [doctorSarah],
    users := [{ id := 1, name := "Alice", email := "alice@x.com", phone := "1" }],
    appointments := [], doctorAvailability := [], blockedSlots := [],
    nextUserId := 2, nextAppointmentId := 1 }

/-- Witness for C6 at a concrete database and a previously unseen email. -/
theorem c6_find_or_create_user_witness :
    (∀ u ∈ dbOneUser.users, u.email ≠ "bob@x.com") ∧
    ((findOrCreateUser dbOneUser "Bob" "bob@x.com" "2").1 = dbOneUser.nextUserId ∧
     (findOrCreateUser dbOneUser "Bob" "bob@x.com" "2").2.users =
       dbOneUser.users ++ [⟨dbOneUser.nextUserId, "Bob", "bob@x.com", "2"⟩] ∧
     (findOrCreateUser dbOneUser "Bob" "bob@x.com" "2").2.users.length =
       dbOneUser.users.length + 1 ∧
     findOrCreateUser (findOrCreateUser dbOneUser "Bob" "bob@x.com" "2").2 "Robert" "bob@x.com" "3" =
       ((findOrCreateUser dbOneUser "Bob" "bob@x.com" "2").1,
        (findOrCreateUser dbOneUser "Bob" "bob@x.com" "2").2)) :=
  ⟨by decide, c6_find_or_create_user dbOneUser "Bob" "bob@x.com" "2" "Robert" "3" (by decide)⟩

/-- C3: a booking request whose (doctor, date, time) triple already carries
a `scheduled` or `confirmed` appointment is answered by the availability
check with `available:false`, and the booking endpoint replies HTTP 200
with `success:false` and the suggested-alternatives list for that doctor —
never an HTTP error status — leaving the database unchanged. -/
theorem c3_conflict_rejection (db : DB) (today doctorId date time : Nat)
    (name email : String) (phone reason : Option String) (tid : Option Nat)
    (hname : name ≠ "") (hemail : email ≠ "") (hd : doctorId ≠ 0) (hdt : date ≠ 0)
    (ht : time ≠ 0)
    (hconf : ∃ a ∈ db.appointments, a.doctorId = doctorId ∧ a.appointmentDate = date ∧
      a.appointmentTime = time ∧ (a.status = "scheduled" ∨ a.status = "confirmed")) :
    (checkTimeSlotAvailability db false doctorId date time).available = false ∧
    bookAppointmentEndpoint db today false
      { patientName := some name, email := some email, phone := phone,
        doctorId := some doctorId, appointmentTypeId := tid,
        appointmentDate := some date, appointmentTime := some time,
        reasonForVisit := reason } =
      ({ status := 200, success := false,
         alternatives := some (getSuggestedAlternatives db doctorId today),
         appointment := none }, db) := by
  have havail : (checkTimeSlotAvailability db false doctorId date time).available = false :=
    (checkAvail_false_iff db doctorId date time).mpr (Or.inl hconf)
  refine ⟨havail, ?_⟩
  have hmiss : missingRequired
      { patientName := some name, email := some email, phone := phone,
        doctorId := some doctorId, appointmentTypeId := tid,
        appointmentDate := some date, appointmentTime := some time,
        reasonForVisit := reason } = false := by
    simp [missingRequired, strFalsy, natFalsy, hname, hemail, hd, hdt, ht]
  rw [bookAppointmentEndpoint, if_neg (by simp [hmiss])]
  simp [havail]

/-- A database in which doctor 2 already has a `scheduled` appointment at
(date 12, minute 600), used by the C3 witness. -/
def dbSched : DB :=
  { doctors := [doctorSarah],
    users := [{ id := 1, name := "Alice", email := "alice@x.com", phone := "1" }],
    appointments := [{ id := 1, userId := 1, doctorId := 2, appointmentTypeId := 1,
                       appointmentDate := 12, appointmentTime := 600,
                       reasonForVisit := "checkup", status := "scheduled", notes := "",
                       confirmationNumber := 1 }],
    doctorAvailability := [{ doctorId := 2, dayOfWeek := 5, startTime := 540,
                             endTime := 1020, isActive := true }],
    blockedSlots := [], nextUserId := 2, nextAppointmentId := 2 }

/-- Witness for C3 at a concrete conflicting booking request. -/
theorem c3_conflict_rejection_witness :
    (∃ a ∈ dbSched.appointments, a.doctorId = 2 ∧ a.appointmentDate = 12 ∧
      a.appointmentTime = 600 ∧ (a.status = "scheduled" ∨ a.status = "confirmed")) ∧
    ((checkTimeSlotAvailability dbSched false 2 12 600).available = false ∧
     bookAppointmentEndpoint dbSched 12 false
       { patientName := some "Bob", email := some "bob@x.com", phone := none,
         doctorId := some 2, appointmentTypeId := none,
         appointmentDate := some 12, appointmentTime := some 600,
         reasonForVisit := none } =
       ({ status := 200, success := false,
          alternatives := some (getSuggestedAlternatives dbSched 2 12),
          appointment := none }, dbSched)) :=
  ⟨by decide, c3_conflict_rejection dbSched 12 2 12 600 "Bob" "bob@x.com" none none none
    (by decide) (by decide) (by decide) (by decide) (by decide) (by decide)⟩

/-- C5 (amended): the chat endpoint always replies HTTP 200 with
`success:true`; whenever the hosted call raises or times out, the
extractor yields no text, or the text fails `JSON.parse`, the response is
exactly the local heuristic fallback built from the database snapshot.
(When the text parses as any JSON value, that value is returned directly,
its shape unchecked.) -/
theorem c5_chat_fallback (jsonParse : String → Option JsonValue) (message : String)
    (db : DB) (today : Nat) (ctxFails : Bool) (outcome : BedrockOutcome)
    (h : outcome = .raises ∨ outcome = .noText ∨
      ∃ s, outcome = .text s ∧ jsonParse s = none) :
    (∀ o : BedrockOutcome, (chatEndpoint jsonParse message db today ctxFails o).status = 200 ∧
      (chatEndpoint jsonParse message db today ctxFails o).success = true) ∧
    (chatEndpoint jsonParse message db today ctxFails outcome).response =
      .fallback (generateSmartFallback message (getDatabaseContext db today ctxFails)) := by
  refine ⟨fun o => ⟨rfl, rfl⟩, ?_⟩
  rcases h with h | h | ⟨s, hs, hp⟩
  · subst h; rfl
  · subst h; rfl
  · subst hs
    simp [chatEndpoint, generateAIResponse, hp]

/-- Witness for C5 at a raising inference call. -/
theorem c5_chat_fallback_witness :
    ((BedrockOutcome.raises = BedrockOutcome.raises ∨
        BedrockOutcome.raises = BedrockOutcome.noText ∨
        ∃ s, BedrockOutcome.raises = BedrockOutcome.text s ∧
          (fun _ : String => (none : Option JsonValue)) s = none)) ∧
    ((∀ o : BedrockOutcome,
        (chatEndpoint (fun _ => none) "hello" dbEx 12 false o).status = 200 ∧
        (chatEndpoint (fun _ => none) "hello" dbEx 12 false o).success = true) ∧
      (chatEndpoint (fun _ => none) "hello" dbEx 12 false .raises).response =
        .fallback (generateSmartFallback "hello" (getDatabaseContext dbEx 12 false))) :=
  ⟨Or.inl rfl,
   c5_chat_fallback (fun _ => none) "hello" dbEx 12 false .raises (Or.inl rfl)⟩

/-- An oracle agreeing with `JSON.parse` on the reply text `"42"`:
`JSON.parse("42")` succeeds and yields the number 42, a value that is not
of the expected `{content, actions}` shape. -/
def jsonParseNum : String → Option JsonValue :=
  fun s => if s == "42" then some (.num 42) else none

/-- Counterexample to C5 as stated: the model reply `"42"` fails to parse
as the expected `{content, actions}` shape, yet the endpoint does not fall
back to the heuristic response — it returns the parsed number directly
(the source only checks `JSON.parse` success, never the shape). -/
theorem c5_counterexample :
    isResponseShape (.num 42) = false ∧
    (chatEndpoint jsonParseNum "hello" dbEx 12 false (.text "42")).success = true ∧
    (chatEndpoint jsonParseNum "hello" dbEx 12 false (.text "42")).response =
      .parsed (.num 42) ∧
    (chatEndpoint jsonParseNum "hello" dbEx 12 false (.text "42")).response ≠
      .fallback (generateSmartFallback "hello" (getDatabaseContext dbEx 12 false)) := by
  have h3 : (chatEndpoint jsonParseNum "hello" dbEx 12 false (.text "42")).response =
      .parsed (.num 42) := rfl
  refine ⟨rfl, rfl, h3, ?_⟩
  rw [h3]
  intro h
  exact BotReply.noConfusion h

/-- A database context holding exactly two active cardiology doctors, as in
the C7 scenario. -/
def ctxTwoCardio : DbContext :=
  { doctors := [doctorSarah, doctorJames],
    upcomingAvailability := [], existingAppointments := [],
    currentDate := 12, tomorrowDate := 13 }

set_option maxRecDepth 100000 in
/-- Counterexample to C7 as stated: against a snapshot with exactly two
active cardiology doctors, the deterministic fallback answers the message
"I need a cardiologist" with the generic greeting and an empty `actions`
list — not two `select_doctor` entries — because the specialty match is a
substring test and "cardiology" is not a substring of "cardiologist". -/
theorem c7_counterexample :
    generateSmartFallback "I need a cardiologist" ctxTwoCardio = greetingResponse ∧
    (generateSmartFallback "I need a cardiologist" ctxTwoCardio).actions.length ≠ 2 := by
  decide

set_option maxRecDepth 100000 in
/-- C7 (amended): the fallback's specialty branch fires exactly when the
lower-cased message contains a known specialty as a substring.  For the
message "I need cardiology" against a snapshot with exactly two active
cardiology doctors it returns exactly two `select_doctor` actions, one
per doctor, each carrying that doctor's id rendered as a string; for
"I need a cardiologist" the substring test fails and the generic greeting
with no actions is returned. -/
theorem c7_specialty_fallback :
    generateSmartFallback "I need cardiology" ctxTwoCardio =
      { content := "Our cardiology specialists are:",
        actions := [{ type := "select_doctor", text := "Dr. Sarah Johnson", data := "2" },
                    { type := "select_doctor", text := "Dr. James Smith", data := "5" }] } ∧
    generateSmartFallback "I need a cardiologist" ctxTwoCardio = greetingResponse := by
  decide

/-- Modelled from the spec: the availability computation the claim
describes — the day-of-week join of `availabilityQueryRows` followed by
exclusion of every window already covered by a non-cancelled appointment
(an appointment of that doctor on that date whose time lies inside the
window) or overlapped by a blocked slot for that doctor and date.  The
source contains no such exclusion; this definition exists only to compare
the claim against the code. -/
def availabilitySpecRows (db : DB) (today : Nat) : List AvailRow :=
  (availabilityQueryRows db today).filter (fun r =>
    !(db.appointments.any (fun a =>
        a.doctorId == r.doctorId && a.appointmentDate == r.availableDate &&
        !(a.status == "cancelled") &&
        decide (r.startTime ≤ a.appointmentTime) && decide (a.appointmentTime ≤ r.endTime))) &&
    !(db.blockedSlots.any (fun b =>
        b.doctorId == r.doctorId && b.blockedDate == r.availableDate &&
        decide (b.startTime ≤ r.endTime) && decide (r.startTime ≤ b.endTime))))

/-- A database in which doctor 2's only availability window (date 12, day
of week 5, minutes 540-1020) is already covered by a `scheduled`
appointment at minute 540. -/
def dbCoveredWindow : DB :=
  { doctors := [doctorSarah],
    users := [{ id := 1, name := "Alice", email := "alice@x.com", phone := "1" }],
    appointments := [{ id := 1, userId := 1, doctorId := 2, appointmentTypeId := 1,
                       appointmentDate := 12, appointmentTime := 540,
                       reasonForVisit := "checkup", status := "scheduled", notes := "",
                       confirmationNumber := 1 }],
    doctorAvailability := [{ doctorId := 2, dayOfWeek := 5, startTime := 540,
                             endTime := 1020, isActive := true }],
    blockedSlots := [], nextUserId := 2, nextAppointmentId := 2 }

set_option maxRecDepth 100000 in
/-- Counterexample to C2 as stated: on `dbCoveredWindow` the availability
computation of `getDatabaseContext` still returns the 540-1020 window for
date 12 even though a non-cancelled (`scheduled`) appointment covers it,
so it differs from the join-then-exclude computation the claim describes. -/
theorem c2_counterexample :
    availabilityQueryRows dbCoveredWindow 12 ≠ availabilitySpecRows dbCoveredWindow 12 ∧
    availabilityQueryRows dbCoveredWindow 12 =
      [{ doctorId := 2, doctorName := "Sarah Johnson", specialty := "Cardiology",
         availableDate := 12, startTime := 540, endTime := 1020 }] ∧
    availabilitySpecRows dbCoveredWindow 12 = [] := by
  decide

set_option maxRecDepth 100000 in
/-- C2 (amended): for every doctor and every day of the rolling 7-day
window the availability computation returns exactly the day-of-week join
of the doctor's active recurring windows (active doctors only, ordered by
date then start time, capped at 100 rows) with no exclusion whatsoever:
its result is invariant under arbitrary changes to the appointments and
blocked-slots tables.  Conflicts are enforced only at booking time by
`checkTimeSlotAvailability`. -/
theorem c2_availability_ignores_conflicts :
    (∀ (db : DB) (today : Nat) (apps : List Appointment) (blocked : List BlockedSlot),
      availabilityQueryRows { db with appointments := apps, blockedSlots := blocked } today =
        availabilityQueryRows db today) ∧
    availabilityQueryRows dbCoveredWindow 12 =
      [{ doctorId := 2, doctorName := "Sarah Johnson", specialty := "Cardiology",
         availableDate := 12, startTime := 540, endTime := 1020 }] :=
  ⟨fun _ _ _ _ => rfl, by decide⟩

/-- A database whose single appointment is `cancelled`. -/
def dbCancelled : DB :=
  { doctors := [doctorSarah],
    users := [{ id := 1, name := "Alice", email := "alice@x.com", phone := "1" }],
    appointments := [{ id := 1, userId := 1, doctorId := 2, appointmentTypeId := 1,
                       appointmentDate := 12, appointmentTime := 600,
                       reasonForVisit := "checkup", status := "cancelled", notes := "",
                       confirmationNumber := 1 }],
    doctorAvailability := [], blockedSlots := [],
    nextUserId := 2, nextAppointmentId := 2 }

/-- Counterexample to C8 as stated: the admin status endpoint happily moves
a `cancelled` appointment back to `scheduled` — a transition the claimed
diagram `(none) → scheduled → {confirmed, cancelled} → {completed,
no-show}` forbids — replying 200 / `success:true`. -/
theorem c8_counterexample :
    dbCancelled.appointments.map (fun a => a.status) = ["cancelled"] ∧
    (updateAppointmentStatusEndpoint dbCancelled 1 "scheduled" "").1.status = 200 ∧
    (updateAppointmentStatusEndpoint dbCancelled 1 "scheduled" "").1.success = true ∧
    (updateAppointmentStatusEndpoint dbCancelled 1 "scheduled" "").2.appointments.map
      (fun a => a.status) = ["scheduled"] := by
  decide

/-- C8 (amended): every appointment starts life as `scheduled` (the booking
insert always writes that literal), and the admin status endpoint enforces
only membership in the valid-status list: a status outside
`{scheduled, confirmed, completed, cancelled, no-show}` is rejected with
HTTP 400 and no change, while any status inside the list is written
unconditionally, whatever the appointment's current status — the endpoint
enforces no transition order. -/
theorem c8_status_lifecycle :
    (∀ (db : DB) (userId doctorId : Nat) (tid : Option Nat) (date time : Nat) (r : String),
      (bookAppointment db userId doctorId tid date time r).1.status = "scheduled" ∧
      (bookAppointment db userId doctorId tid date time r).2.appointments =
        db.appointments ++ [(bookAppointment db userId doctorId tid date time r).1]) ∧
    (∀ (db : DB) (id : Nat) (s notes : String), validStatuses.contains s = false →
      updateAppointmentStatusEndpoint db id s notes =
        ({ status := 400, success := false, data := none }, db)) ∧
    (∀ (db : DB) (id : Nat) (s notes : String), validStatuses.contains s = true →
      (updateAppointmentStatusEndpoint db id s notes).2.appointments =
        db.appointments.map (fun x =>
          if x.id == id then { x with status := s, notes := notes } else x)) := by
  refine ⟨fun db u d tid dt t r => ⟨rfl, rfl⟩, fun db id s notes h => ?_,
    fun db id s notes h => ?_⟩
  · rw [updateAppointmentStatusEndpoint, if_pos (by simpa using h)]
  · rw [updateAppointmentStatusEndpoint, if_neg (by simpa using h)]
    cases hf : db.appointments.find? (fun a => a.id == id) with
    | none =>
        have hall := List.find?_eq_none.mp hf
        have hmap : db.appointments.map (fun x =>
            if x.id == id then { x with status := s, notes := notes } else x) =
            db.appointments.map (fun x => x) := by
          apply List.map_congr_left
          intro a ha
          simp [hall a ha]
        show db.appointments = _
        rw [hmap, List.map_id']
    | some a => rfl

/-- Witness for C8 at an out-of-list status on the concrete database. -/
theorem c8_status_lifecycle_witness :
    validStatuses.contains "archived" = false ∧
    updateAppointmentStatusEndpoint dbCancelled 1 "archived" "" =
      ({ status := 400, success := false, data := none }, dbCancelled) :=
  ⟨by decide, c8_status_lifecycle.2.1 dbCancelled 1 "archived" "" (by decide)⟩

/-- `findOrCreateUser` only touches the users table: the appointments list
is unchanged. -/
theorem findOrCreateUser_appointments (db : DB) (name email phone : String) :
    (findOrCreateUser db name email phone).2.appointments = db.appointments := by
  rw [findOrCreateUser]
  split <;> rfl

/-- C1 (amended): on both booking paths (`/api/book-appointment` and the
conversational `/api/complete-booking`) an appointment row is inserted
only if the availability check ran without error and found neither a
`scheduled`/`confirmed` appointment on the requested (doctor, date, time)
triple nor a blocked-slot range covering the time — the availability check
gates every insert.  (Appointments in the other non-cancelled statuses,
`completed` and `no-show`, do not block a new insert; see the
counterexample to the claim as originally stated.) -/
theorem c1_availability_gates_inserts :
    (∀ (db : DB) (today : Nat) (availFails : Bool) (req : BookRequest),
      (bookAppointmentEndpoint db today availFails req).2.appointments ≠ db.appointments →
        availFails = false ∧
        appointmentConflicts db (req.doctorId.getD 0) (req.appointmentDate.getD 0)
          (req.appointmentTime.getD 0) = [] ∧
        blockedConflicts db (req.doctorId.getD 0) (req.appointmentDate.getD 0)
          (req.appointmentTime.getD 0) = []) ∧
    (∀ (db : DB) (today : Nat) (ctxFails availFails : Bool) (doctorId date time : Nat),
      (completeBookingEndpoint db today ctxFails availFails doctorId date time).2.appointments ≠
          db.appointments →
        availFails = false ∧
        appointmentConflicts db doctorId date time = [] ∧
        blockedConflicts db doctorId date time = []) := by
  constructor
  · intro db today availFails req h
    by_cases hm : missingRequired req = true
    · exfalso
      apply h
      rw [bookAppointmentEndpoint, if_pos hm]
    · rw [Bool.not_eq_true] at hm
      cases hav : (checkTimeSlotAvailability db availFails (req.doctorId.getD 0)
          (req.appointmentDate.getD 0) (req.appointmentTime.getD 0)).available with
      | false =>
          exfalso
          apply h
          rw [bookAppointmentEndpoint, if_neg (by simp [hm])]
          simp [hav]
      | true =>
          have hfail : availFails = false := by
            cases availFails with
            | false => rfl
            | true => simp [checkTimeSlotAvailability] at hav
          subst hfail
          have hconf := (checkAvail_true_iff db _ _ _).mp hav
          exact ⟨rfl, hconf.1, hconf.2⟩
  · intro db today ctxFails availFails doctorId date time h
    cases hav : (checkTimeSlotAvailability db availFails doctorId date time).available with
    | false =>
        exfalso
        apply h
        simp only [completeBookingEndpoint]
        cases hfind : (getDatabaseContext db today ctxFails).doctors.find?
            (fun x => x.id == doctorId) with
        | none => rfl
        | some doc => simp [hav]
    | true =>
        have hfail : availFails = false := by
          cases availFails with
          | false => rfl
          | true => simp [checkTimeSlotAvailability] at hav
        subst hfail
        have hconf := (checkAvail_true_iff db doctorId date time).mp hav
        exact ⟨rfl, hconf.1, hconf.2⟩

/-- A well-formed direct booking request for doctor 2 at (date 12, minute
600). -/
def reqDoctor2 : BookRequest :=
  { patientName := some "Bob", email := some "bob@x.com", phone := none,
    doctorId := some 2, appointmentTypeId := none, appointmentDate := some 12,
    appointmentTime := some 600, reasonForVisit := none }

/-- Witness for C1 (amended) at a concrete successful booking. -/
theorem c1_availability_gates_inserts_witness :
    (bookAppointmentEndpoint dbEx 12 false reqDoctor2).2.appointments ≠ dbEx.appointments ∧
    (false = false ∧
     appointmentConflicts dbEx (reqDoctor2.doctorId.getD 0) (reqDoctor2.appointmentDate.getD 0)
       (reqDoctor2.appointmentTime.getD 0) = [] ∧
     blockedConflicts dbEx (reqDoctor2.doctorId.getD 0) (reqDoctor2.appointmentDate.getD 0)
       (reqDoctor2.appointmentTime.getD 0) = []) :=
  ⟨by decide, c1_availability_gates_inserts.1 dbEx 12 false reqDoctor2 (by decide)⟩

/-- A database whose appointment at (doctor 2, date 12, minute 600) is
`completed` — a non-cancelled status. -/
def dbCompleted : DB :=
  { doctors := [doctorSarah],
    users := [{ id := 1, name := "Alice", email := "alice@x.com", phone := "1" }],
    appointments := [{ id := 1, userId := 1, doctorId := 2, appointmentTypeId := 1,
                       appointmentDate := 12, appointmentTime := 600,
                       reasonForVisit := "checkup", status := "completed", notes := "",
                       confirmationNumber := 1 }],
    doctorAvailability := [], blockedSlots := [],
    nextUserId := 2, nextAppointmentId := 2 }

/-- Counterexample to C1 as stated: the triple (doctor 2, date 12, minute
600) already carries a non-cancelled (`completed`) appointment, yet the
direct booking endpoint inserts a second appointment row for the same
triple, because the conflict query counts only `scheduled`/`confirmed`
statuses. -/
theorem c1_counterexample :
    (∃ a ∈ dbCompleted.appointments, a.doctorId = 2 ∧ a.appointmentDate = 12 ∧
      a.appointmentTime = 600 ∧ a.status ≠ "cancelled") ∧
    (bookAppointmentEndpoint dbCompleted 12 false reqDoctor2).1.success = true ∧
    (bookAppointmentEndpoint dbCompleted 12 false reqDoctor2).2.appointments.map
      (fun a => (a.doctorId, a.appointmentDate, a.appointmentTime)) =
      [(2, 12, 600), (2, 12, 600)] := by
  decide

end MedSched
